import Mathlib

/-!
Verification of the specimin evaluation harness (`main.py`) against its
specification.  The Python script is shallowly embedded: paths are POSIX
strings, the filesystem is an explicit record of directories and files,
subprocess outcomes are an explicit inductive type, and Python exceptions
are `Except`.
-/

namespace SpeciminEval

/-- First character of a string, if any. -/
def strHead (s : String) : Option Char := s.data.head?

/-- Last character of a string, if any. -/
def strLast (s : String) : Option Char := s.data.getLast?

/-- Does the string start with the path separator?  (POSIX, `os.sep = '/'`.) -/
def startsSlash (s : String) : Bool :=
  match s.data with
  | c :: _ => c == '/'
  | [] => false

/-- Does the string end with the path separator? -/
def endsSlash (s : String) : Bool :=
  match s.data.getLast? with
  | some c => c == '/'
  | none => false

/-- `os.path.join` for two components, POSIX semantics (`posixpath.join`):
an absolute second component replaces the first; otherwise the separator is
inserted unless the first component is empty or already ends in one. -/
def pjoin (a b : String) : String :=
  if startsSlash b then b
  else if a = "" ∨ endsSlash a = true then a ++ b
  else a ++ "/" ++ b

/-- `os.path.basename`, POSIX: the suffix after the last separator. -/
def basename (s : String) : String :=
  String.mk ((s.data.reverse.takeWhile (fun c => c != '/')).reverse)

/-- `os.path.splitext`: split off the extension at the last dot of the final
component, unless every character between the last separator and that dot is
itself a dot (so purely dotted leading names such as `.bashrc` keep their dot). -/
def splitext (p : String) : String × String :=
  let l := p.data
  let sepIdx : Int := l.foldl (fun (st : Int × Int) c =>
    (st.1 + 1, if c == '/' then st.1 else st.2)) (0, -1) |>.2
  let dotIdx : Int := l.foldl (fun (st : Int × Int) c =>
    (st.1 + 1, if c == '.' then st.1 else st.2)) (0, -1) |>.2
  if dotIdx > sepIdx then
    let start := (sepIdx + 1).toNat
    let stop := dotIdx.toNat
    if ((l.drop start).take (stop - start)).any (fun c => c != '.') then
      (String.mk (l.take stop), String.mk (l.drop stop))
    else (p, "")
  else (p, "")

/-- Python `str.replace('.', '/')`: a single-character pattern, hence a
character-wise map. -/
def dotReplaced (p : String) : String :=
  String.mk (p.data.map (fun c => if c == '.' then '/' else c))

/-- Python `str.rstrip('/')`: remove every trailing separator character. -/
def rstripSlash (s : String) : String :=
  String.mk ((s.data.reverse.dropWhile (fun c => c == '/')).reverse)

/-- Split a character list at separators (helper for `splitSlash`). -/
def splitSlashAux : List Char → List Char → List String
  | [], acc => [String.mk acc.reverse]
  | c :: rest, acc =>
    if c == '/' then String.mk acc.reverse :: splitSlashAux rest []
    else splitSlashAux rest (c :: acc)

/-- Split a path string on the separator. -/
def splitSlash (s : String) : List String := splitSlashAux s.data []

/-- Length of the common prefix of two component lists. -/
def commonLen : List String → List String → Nat
  | a :: as, b :: bs => if a == b then commonLen as bs + 1 else 0
  | _, _ => 0

/-- `os.path.relpath(path, start)`, modelled for paths that are interpreted
relative to one common working directory: normalise both into non-empty,
non-`.` components, drop the common prefix, and climb out of the remainder
of `start` before descending into the remainder of `path`. -/
def relpath (path start : String) : String :=
  let ps := (splitSlash path).filter (fun c => c != "" && c != ".")
  let ss := (splitSlash start).filter (fun c => c != "" && c != ".")
  let i := commonLen ps ss
  let rel := List.replicate (ss.length - i) ".." ++ ps.drop i
  if rel = [] then "." else String.intercalate "/" rel

/-- The filesystem, relative to the process working directory: a set of
existing directories and a map from file paths to contents. -/
structure FS where
  dirs : List String
  files : List (String × String)
deriving DecidableEq

/-- `os.path.isdir`. -/
def FS.isDir (fs : FS) (p : String) : Bool := fs.dirs.contains p

/-- Is there a regular file at `p`? -/
def FS.isFile (fs : FS) (p : String) : Bool := fs.files.any (fun kv => kv.1 == p)

/-- `os.path.exists`: a directory or a file. -/
def FS.existsPath (fs : FS) (p : String) : Bool := fs.isDir p || fs.isFile p

/-- Contents of the file at `p`, if present. -/
def FS.readFile (fs : FS) (p : String) : Option String := fs.files.lookup p

/-- Insert a directory path without duplicating it. -/
def insertDir (ds : List String) (p : String) : List String :=
  if ds.contains p then ds else p :: ds

/-- The chain of ancestor paths created by `os.makedirs`. -/
def pathAncestors (p : String) : List String :=
  let parts := (splitSlash p).filter (fun c => c != "")
  (List.range parts.length).map (fun i => String.intercalate "/" (parts.take (i + 1)))

/-- `os.makedirs(p, exist_ok=True)`: create `p` and its ancestors; files are
untouched and existing directories are kept. -/
def FS.makedirs (fs : FS) (p : String) : FS :=
  { fs with dirs := insertDir ((pathAncestors p).foldl insertDir fs.dirs) p }

/-- Is `q` the path `root` itself or strictly below it? -/
def isUnder (root q : String) : Bool :=
  q == root || List.isPrefixOf (root ++ "/").data q.data

/-- `shutil.rmtree`: remove the tree rooted at `p`. -/
def FS.rmtree (fs : FS) (p : String) : FS :=
  { dirs := fs.dirs.filter (fun q => !(isUnder p q)),
    files := fs.files.filter (fun kv => !(isUnder p kv.1)) }

/-- `os.remove`: delete the file at `p`. -/
def FS.removeFile (fs : FS) (p : String) : FS :=
  { fs with files := fs.files.filter (fun kv => kv.1 != p) }

/-- `open(p, 'w')` followed by a full write: truncate and replace. -/
def FS.writeFile (fs : FS) (p c : String) : FS :=
  { fs with files := (p, c) :: fs.files.filter (fun kv => kv.1 != p) }

/-- Module constant `issue_folder_dir`. -/
def issue_folder_dir : String := "ISSUES"

/-- Module constant `specimin_input`. -/
def specimin_input : String := "input"

/-- Module constant `specimin_output`. -/
def specimin_output : String := "output"

/-- Module constant `specimin_project_name`. -/
def specimin_project_name : String := "specimin"

/-- Module constant `TIMEOUT_DURATION`. -/
def TIMEOUT_DURATION : Nat := 300

/-- `get_repository_name`: the basename of the URL with its extension
stripped. -/
def get_repository_name (github_ssh : String) : String :=
  (splitext (basename github_ssh)).1

/-- `create_issue_directory(issue_container_dir, issue_id)`, line for line:
make the issue directory and the input directory (both `exist_ok=True`);
then test `os.path.exists(specimin_output)` — the bare constant `"output"`,
a working-directory-relative path — and `rmtree` that same bare path if it
exists; finally make the per-issue output directory (`exist_ok=True`).
Returns the new filesystem and the input-directory path. -/
def create_issue_directory (fs : FS) (issue_container_dir issue_id : String) :
    FS × String :=
  let issue_directory_name := pjoin issue_container_dir issue_id
  let fs1 := fs.makedirs issue_directory_name
  let specimin_input_dir := pjoin issue_directory_name specimin_input
  let specimin_output_dir := pjoin issue_directory_name specimin_output
  let fs2 := fs1.makedirs specimin_input_dir
  let fs3 := if fs2.existsPath specimin_output then fs2.rmtree specimin_output else fs2
  let fs4 := fs3.makedirs specimin_output_dir
  (fs4, specimin_input_dir)

/-- `is_git_directory(dir)`: `os.path.exists(dir/.git) and os.path.isdir(dir/.git)`. -/
def is_git_directory (fs : FS) (dir : String) : Bool :=
  let git_dir_path := pjoin dir ".git"
  fs.existsPath git_dir_path && fs.isDir git_dir_path

/-- An invocation of the external version-control executable. -/
inductive GitOp where
  | clone (url directory : String)
deriving DecidableEq

/-- Modelled from the spec: the effect of the external version-control clone
operation, which is out of scope for the repository and specified only at its
interface boundary — on success it creates a directory named after the
repository inside the given working directory. -/
def git_clone_effect (fs : FS) (url directory : String) : FS :=
  { fs with dirs := (directory ++ "/" ++ get_repository_name url) :: fs.dirs }

/-- `clone_repository(url, directory)`: if `f"{directory}/{project_name}"`
already exists, print and return without any subprocess call; otherwise run
`git clone url` with `directory` as working directory.  The returned list
records the git operations performed. -/
def clone_repository (fs : FS) (url directory : String) : FS × List GitOp :=
  let project_name := get_repository_name url
  if fs.existsPath (directory ++ "/" ++ project_name) then (fs, [])
  else (git_clone_effect fs url directory, [GitOp.clone url directory])

/-- `change_branch(branch, directory)`: raise `ValueError` when the directory
is not a git directory; otherwise run `git checkout branch` via
`subprocess.run` with the exit code ignored (no `check=True`), so a failing
checkout raises nothing.  `gitExit` is the checkout subprocess exit code. -/
def change_branch (fs : FS) (branch directory : String) (gitExit : Int) :
    Except String Unit :=
  if is_git_directory fs directory then
    let _ := branch
    let _ := gitExit
    Except.ok ()
  else Except.error (directory ++ " is not a valid git directory")

/-- `checkout_commit(commit_hash, directory)`: raise `ValueError` when the
directory is not a git directory; otherwise run `git checkout commit_hash`,
print a diagnostic, and return `returncode == 0` (the dead
`if True else False` conditional reduces to exactly that). -/
def checkout_commit (fs : FS) (commit_hash directory : String) (gitExit : Int) :
    Except String Bool :=
  if is_git_directory fs directory then
    let _ := commit_hash
    Except.ok (gitExit == 0)
  else Except.error (directory ++ " is not a valid git directory")

/-- The `Result` record.  Modelled from the spec: the `Result` class lives in
`Result.py`, which is not in the sources; the spec gives its three fields
`name` (the issue id), `status` (`PASS` or `FAIL`) and `reason`. -/
structure Result where
  name : String
  status : String
  reason : String
deriving DecidableEq

/-- Outcome of the subprocess launched by `run_specimin`: a completed run
with exit code and captured standard-error text (already decoded as UTF-8),
a `subprocess.TimeoutExpired`, or any other exception with its description. -/
inductive ExecOutcome where
  | completed (returncode : Int) (stderr : String)
  | timeout
  | err (description : String)
deriving DecidableEq

/-- The deterministic error-log path `os.path.join(issue_folder_dir,
issue_name, f"{issue_name}_error.txt")`. -/
def error_log_path (issue_name : String) : String :=
  pjoin (pjoin issue_folder_dir issue_name) (issue_name ++ "_error.txt")

/-- `run_specimin(issue_name, command, directory)`: exit code 0 yields
`PASS`; a non-zero exit code deletes any pre-existing error-log file, writes
the captured standard error there and returns `FAIL` with that path as
reason; a timeout yields `FAIL`/`"Timeout"` with no filesystem change; any
other exception yields `FAIL` with an `"Unhandled exception occurred: "`
reason.  Total: every outcome maps to a returned `Result`. -/
def run_specimin (fs : FS) (issue_name command directory : String)
    (outcome : ExecOutcome) : FS × Result :=
  let _ := command
  let _ := directory
  match outcome with
  | ExecOutcome.completed returncode stderr =>
    if returncode = 0 then (fs, ⟨issue_name, "PASS", ""⟩)
    else
      let error_msg_file := error_log_path issue_name
      let fs1 := if fs.existsPath error_msg_file then fs.removeFile error_msg_file else fs
      let fs2 := fs1.writeFile error_msg_file stderr
      (fs2, ⟨issue_name, "FAIL", error_msg_file⟩)
  | ExecOutcome.timeout => (fs, ⟨issue_name, "FAIL", "Timeout"⟩)
  | ExecOutcome.err description =>
    (fs, ⟨issue_name, "FAIL", "Unhandled exception occurred: " ++ description⟩)

/-- One target record of the issue JSON.  `inner_class = none` models an
absent `inner_class` key; `some s` a present key with value `s`. -/
structure TargetDescriptor where
  method_name : String
  file_name : String
  package : String
  inner_class : Option String
deriving DecidableEq

/-- The file-target path for one descriptor:
`os.path.join(package_name.replace('.', '/'), file_name)`. -/
def qualified_file_name (target : TargetDescriptor) : String :=
  pjoin (dotReplaced target.package) target.file_name

/-- The `inner_class_name` fragment: `f".{inner_class}"` when the key is
present and truthy (non-empty), otherwise empty. -/
def inner_class_part (target : TargetDescriptor) : String :=
  match target.inner_class with
  | some s => if s != "" then "." ++ s else ""
  | none => ""

/-- The qualified method name for one descriptor:
`package + "." + os.path.splitext(file_name)[0] + inner_class_name + "#" + method_name`. -/
def qualified_method_name (target : TargetDescriptor) : String :=
  target.package ++ "." ++ (splitext target.file_name).1 ++
    inner_class_part target ++ "#" ++ target.method_name

/-- The body of the `for target in targets` loop: append a file target when
`file_name` is truthy, then a method target when `method_name` is truthy. -/
def target_step (acc : List String × List String) (target : TargetDescriptor) :
    List String × List String :=
  let acc1 :=
    if target.file_name != "" then (acc.1 ++ [qualified_file_name target], acc.2)
    else acc
  if target.method_name != "" then (acc1.1, acc1.2 ++ [qualified_method_name target])
  else acc1

/-- The `target_file_list` and `target_method_list` built by the loop. -/
def collect_targets (targets : List TargetDescriptor) : List String × List String :=
  targets.foldl target_step ([], [])

/-- The `output_dir` value of `build_specimin_command`:
`os.path.join(relpath(issue_input_dir, specimin_dir), specimin_output)`. -/
def specimin_output_dir_arg (issue_input_dir specimin_dir : String) : String :=
  pjoin (relpath issue_input_dir specimin_dir) specimin_output

/-- The final `root_dir` value of `build_specimin_command`:
`os.path.join(relpath, specimin_input, project_name, root_dir).rstrip('/') + os.sep`. -/
def specimin_root_dir_arg (project_name issue_input_dir specimin_dir root_dir : String) :
    String :=
  rstripSlash
    (pjoin (pjoin (pjoin (relpath issue_input_dir specimin_dir) specimin_input)
      project_name) root_dir) ++ "/"

/-- One rendered flag, `flag + " " + f"\"{value}\""`. -/
def render_flag (flag v : String) : String := flag ++ " " ++ "\"" ++ v ++ "\""

/-- The concatenation `+=` loop over a list of values for one repeated flag:
no separator between consecutive rendered flags. -/
def flag_subcommand (flag : String) (values : List String) : String :=
  values.foldl (fun acc v => acc ++ render_flag flag v) ""

/-- A single-quote character, written via its code point. -/
def squote : String := String.singleton (Char.ofNat 39)

/-- The `command_args` string of `build_specimin_command`: root flag, space,
output-directory flag, space, all file-target flags, space, all
method-target flags. -/
def specimin_command_args (project_name issue_input_dir specimin_dir root_dir : String)
    (targets : List TargetDescriptor) : String :=
  let lists := collect_targets targets
  render_flag "--root" (specimin_root_dir_arg project_name issue_input_dir specimin_dir root_dir)
    ++ " " ++
    render_flag "--outputDirectory" (specimin_output_dir_arg issue_input_dir specimin_dir)
    ++ " " ++ flag_subcommand "--targetFile" lists.1
    ++ " " ++ flag_subcommand "--targetMethod" lists.2

/-- `build_specimin_command`: the gradle invocation with the whole argument
string wrapped in single quotes as one shell-level argument. -/
def build_specimin_command (project_name issue_input_dir specimin_dir root_dir : String)
    (targets : List TargetDescriptor) : String :=
  "./gradlew" ++ " " ++ "run" ++ " " ++ "--args=" ++ squote ++
    specimin_command_args project_name issue_input_dir specimin_dir root_dir targets
    ++ squote

/-- Structured (flag, value) view of the arguments assembled by
`build_specimin_command`, in the order the code emits them. -/
def specimin_command_tokens (project_name issue_input_dir specimin_dir root_dir : String)
    (targets : List TargetDescriptor) : List (String × String) :=
  let lists := collect_targets targets
  ("--root", specimin_root_dir_arg project_name issue_input_dir specimin_dir root_dir) ::
    ("--outputDirectory", specimin_output_dir_arg issue_input_dir specimin_dir) ::
    (lists.1.map (fun f => ("--targetFile", f)) ++
     lists.2.map (fun m => ("--targetMethod", m)))

/-- One record of the issue corpus (spec section 3, field names as in the
JSON keys read by `performEvaluation`). -/
structure IssueSpec where
  issue_id : String
  url : String
  branch : String
  commit_hash : String
  root_dir : String
  targets : List TargetDescriptor

/-- The batch loop of `main`: when the parsed data is truthy, iterate it,
`continue` past every issue whose `issue_id` differs from the literal
`"cf-6282"`, and append the evaluation result of the remaining ones.
`ev` abstracts `performEvaluation`. -/
def main_evaluation_results (ev : IssueSpec → Result)
    (parsed_data : Option (List IssueSpec)) : List Result :=
  match parsed_data with
  | none => []
  | some issues =>
    if issues.isEmpty then []
    else issues.foldl
      (fun acc issue => if issue.issue_id != "cf-6282" then acc else acc ++ [ev issue])
      []

/-! ### String and path lemmas -/

theorem strHead_append_or (a b : String) :
    strHead (a ++ b) = (strHead a).or (strHead b) := by
  unfold strHead
  rw [String.data_append]
  exact List.head?_append

theorem strLast_append_or (a b : String) :
    strLast (a ++ b) = (strLast b).or (strLast a) := by
  unfold strLast
  rw [String.data_append]
  exact List.getLast?_append

theorem startsSlash_eq (s : String) : startsSlash s = (strHead s == some '/') := by
  unfold startsSlash strHead
  cases h : s.data with
  | nil => rfl
  | cons c cs => rfl

theorem endsSlash_eq (s : String) : endsSlash s = (strLast s == some '/') := by
  unfold endsSlash strLast
  cases h : s.data.getLast? with
  | none => rfl
  | some c => rfl

theorem strHead_of_data_nil (s : String) (h : s.data = []) : strHead s = none := by
  unfold strHead
  rw [h]
  rfl

theorem strHead_append_left (a b : String) (h : a.data ≠ []) :
    strHead (a ++ b) = strHead a := by
  rw [strHead_append_or]
  cases hd : a.data with
  | nil => exact absurd hd h
  | cons c cs =>
    unfold strHead
    rw [hd]
    rfl

theorem strLast_append_right (a b : String) (h : b.data ≠ []) :
    strLast (a ++ b) = strLast b := by
  rw [strLast_append_or]
  have : b.data.getLast? ≠ none := by
    intro h0
    exact h (List.getLast?_eq_none_iff.mp h0)
  unfold strLast
  cases hd : b.data.getLast? with
  | none => exact absurd hd this
  | some c => rfl

/-- The head character of the deterministic error-log path is either the
`I` of the `ISSUES` container or a leading separator from an absolute issue
name. -/
theorem strHead_error_log_path (n : String) :
    strHead (error_log_path n) = some 'I' ∨ strHead (error_log_path n) = some '/' := by
  unfold error_log_path issue_folder_dir
  by_cases hn : startsSlash n = true
  · right
    have hhd : strHead n = some '/' := by
      rw [startsSlash_eq] at hn
      exact eq_of_beq hn
    have hnd : n.data ≠ [] := by
      intro h0
      rw [strHead_of_data_nil n h0] at hhd
      exact Option.noConfusion hhd
    have h1 : pjoin "ISSUES" n = n := by
      unfold pjoin
      rw [if_pos hn]
    rw [h1]
    have h2 : startsSlash (n ++ "_error.txt") = true := by
      rw [startsSlash_eq, strHead_append_left n _ hnd, hhd]
      rfl
    unfold pjoin
    rw [if_pos h2, strHead_append_left n _ hnd]
    exact hhd
  · left
    have hn' : startsSlash n = false := Bool.not_eq_true _ ▸ eq_false_of_ne_true hn
    have hcond : ¬("ISSUES" = "" ∨ endsSlash "ISSUES" = true) := by decide
    have h1 : pjoin "ISSUES" n = "ISSUES" ++ "/" ++ n := by
      unfold pjoin
      rw [if_neg (by simp [hn']), if_neg hcond]
    have hp1d : ("ISSUES" ++ "/" ++ n).data ≠ [] := by
      rw [String.data_append, String.data_append]
      simp
    have hp1h : strHead ("ISSUES" ++ "/" ++ n) = some 'I' := by
      rw [strHead_append_left ("ISSUES" ++ "/") n (by decide)]
      decide
    have h2 : startsSlash (n ++ "_error.txt") = false := by
      rw [startsSlash_eq, strHead_append_or]
      cases hd : n.data with
      | nil =>
        rw [strHead_of_data_nil n hd]
        decide
      | cons c cs =>
        have hc : (c == '/') = false := by
          unfold startsSlash at hn'
          rw [hd] at hn'
          exact hn'
        unfold strHead
        rw [hd]
        simpa using hc
    rw [h1]
    unfold pjoin
    rw [if_neg (by simp [h2])]
    by_cases h3 : ("ISSUES" ++ "/" ++ n = "" ∨ endsSlash ("ISSUES" ++ "/" ++ n) = true)
    · rw [if_pos h3, strHead_append_left _ _ hp1d]
      exact hp1h
    · rw [if_neg h3, strHead_append_left ("ISSUES" ++ "/" ++ n ++ "/") _ ?_,
        strHead_append_left _ _ hp1d]
      · exact hp1h
      · rw [String.data_append]
        simp [hp1d]

theorem error_log_path_ne_timeout (n : String) : error_log_path n ≠ "Timeout" := by
  intro h
  have hh := congrArg strHead h
  have ht : strHead "Timeout" = some 'T' := by decide
  rcases strHead_error_log_path n with hI | hS
  · rw [hI, ht] at hh
    exact absurd hh (by decide)
  · rw [hS, ht] at hh
    exact absurd hh (by decide)

theorem strHead_unhandled (m : String) :
    strHead ("Unhandled exception occurred: " ++ m) = some 'U' := by
  rw [strHead_append_left _ _ (by decide)]
  decide

theorem error_log_path_ne_unhandled (n m : String) :
    error_log_path n ≠ "Unhandled exception occurred: " ++ m := by
  intro h
  have hh := congrArg strHead h
  rw [strHead_unhandled] at hh
  rcases strHead_error_log_path n with hI | hS
  · rw [hI] at hh
    exact absurd hh (by decide)
  · rw [hS] at hh
    exact absurd hh (by decide)

theorem timeout_ne_unhandled (m : String) :
    ("Timeout" : String) ≠ "Unhandled exception occurred: " ++ m := by
  intro h
  have hh := congrArg strHead h
  rw [strHead_unhandled] at hh
  have ht : strHead "Timeout" = some 'T' := by decide
  rw [ht] at hh
  exact absurd hh (by decide)

/-! ### Target-list and command-shape lemmas -/

/-- The values carried by the occurrences of one flag, in order. -/
def flag_values (flag : String) : List (String × String) → List String
  | [] => []
  | tk :: rest =>
    if tk.1 == flag then tk.2 :: flag_values flag rest else flag_values flag rest

theorem flag_values_append (flag : String) (a b : List (String × String)) :
    flag_values flag (a ++ b) = flag_values flag a ++ flag_values flag b := by
  induction a with
  | nil => rfl
  | cons tk a ih =>
    by_cases h : (tk.1 == flag) = true <;> simp [flag_values, h, ih]

theorem flag_values_map_self (flag : String) (l : List String) :
    flag_values flag (l.map (fun v => (flag, v))) = l := by
  induction l with
  | nil => rfl
  | cons v l ih => simp [flag_values, ih]

theorem flag_values_map_other (flag flag2 : String) (h : (flag2 == flag) = false)
    (l : List String) :
    flag_values flag (l.map (fun v => (flag2, v))) = [] := by
  induction l with
  | nil => rfl
  | cons v l ih => simp [flag_values, h, ih]

theorem foldl_target_step_fst (ts : List TargetDescriptor)
    (acc : List String × List String) :
    (ts.foldl target_step acc).1
      = acc.1 ++ (ts.filter (fun t => t.file_name != "")).map qualified_file_name := by
  induction ts generalizing acc with
  | nil => simp
  | cons t ts ih =>
    rw [List.foldl_cons, ih]
    unfold target_step
    cases hf : (t.file_name != "") <;> cases hm : (t.method_name != "") <;>
      simp [hf, hm]

theorem foldl_target_step_snd (ts : List TargetDescriptor)
    (acc : List String × List String) :
    (ts.foldl target_step acc).2
      = acc.2 ++ (ts.filter (fun t => t.method_name != "")).map qualified_method_name := by
  induction ts generalizing acc with
  | nil => simp
  | cons t ts ih =>
    rw [List.foldl_cons, ih]
    unfold target_step
    cases hf : (t.file_name != "") <;> cases hm : (t.method_name != "") <;>
      simp [hf, hm]

theorem collect_targets_fst (ts : List TargetDescriptor) :
    (collect_targets ts).1
      = (ts.filter (fun t => t.file_name != "")).map qualified_file_name := by
  unfold collect_targets
  rw [foldl_target_step_fst]
  rfl

theorem collect_targets_snd (ts : List TargetDescriptor) :
    (collect_targets ts).2
      = (ts.filter (fun t => t.method_name != "")).map qualified_method_name := by
  unfold collect_targets
  rw [foldl_target_step_snd]
  rfl

theorem tokens_flag_values_root
    (project_name issue_input_dir specimin_dir root_dir : String)
    (targets : List TargetDescriptor) :
    flag_values "--root"
        (specimin_command_tokens project_name issue_input_dir specimin_dir root_dir
          targets)
      = [specimin_root_dir_arg project_name issue_input_dir specimin_dir root_dir] := by
  unfold specimin_command_tokens
  simp only [flag_values, flag_values_append,
    flag_values_map_other "--root" "--targetFile" (by decide),
    flag_values_map_other "--root" "--targetMethod" (by decide)]
  simp

theorem tokens_flag_values_output
    (project_name issue_input_dir specimin_dir root_dir : String)
    (targets : List TargetDescriptor) :
    flag_values "--outputDirectory"
        (specimin_command_tokens project_name issue_input_dir specimin_dir root_dir
          targets)
      = [specimin_output_dir_arg issue_input_dir specimin_dir] := by
  unfold specimin_command_tokens
  simp only [flag_values, flag_values_append,
    flag_values_map_other "--outputDirectory" "--targetFile" (by decide),
    flag_values_map_other "--outputDirectory" "--targetMethod" (by decide)]
  simp

theorem tokens_flag_values_targetFile
    (project_name issue_input_dir specimin_dir root_dir : String)
    (targets : List TargetDescriptor) :
    flag_values "--targetFile"
        (specimin_command_tokens project_name issue_input_dir specimin_dir root_dir
          targets)
      = (collect_targets targets).1 := by
  unfold specimin_command_tokens
  simp only [flag_values, flag_values_append, flag_values_map_self,
    flag_values_map_other "--targetFile" "--targetMethod" (by decide)]
  simp

theorem tokens_flag_values_targetMethod
    (project_name issue_input_dir specimin_dir root_dir : String)
    (targets : List TargetDescriptor) :
    flag_values "--targetMethod"
        (specimin_command_tokens project_name issue_input_dir specimin_dir root_dir
          targets)
      = (collect_targets targets).2 := by
  unfold specimin_command_tokens
  simp only [flag_values, flag_values_append, flag_values_map_self,
    flag_values_map_other "--targetMethod" "--targetFile" (by decide)]
  simp

theorem endsSlash_root_arg
    (project_name issue_input_dir specimin_dir root_dir : String) :
    endsSlash (specimin_root_dir_arg project_name issue_input_dir specimin_dir
      root_dir) = true := by
  unfold specimin_root_dir_arg
  rw [endsSlash_eq, strLast_append_right _ "/" (by decide)]
  decide

theorem endsSlash_output_arg (issue_input_dir specimin_dir : String) :
    endsSlash (specimin_output_dir_arg issue_input_dir specimin_dir) = false := by
  unfold specimin_output_dir_arg pjoin
  have hs : startsSlash specimin_output = false := by decide
  rw [if_neg (by simp [hs])]
  by_cases h : (relpath issue_input_dir specimin_dir = ""
      ∨ endsSlash (relpath issue_input_dir specimin_dir) = true)
  · rw [if_pos h, endsSlash_eq, strLast_append_right _ specimin_output (by decide)]
    decide
  · rw [if_neg h, endsSlash_eq, strLast_append_right _ specimin_output (by decide)]
    decide

/-! ### Claim theorems: command synthesis -/

/-- Claim C4: every target descriptor with a non-empty `file_name`
contributes a `--targetFile` value equal to its `package` with every dot
replaced by the path separator, path-joined with `file_name`, and
descriptors with an empty `file_name` contribute no `--targetFile` flag:
the `--targetFile` values of the synthesized command are exactly those of
the descriptors with non-empty `file_name`, in input order. -/
theorem targetFile_flags_characterization
    (project_name issue_input_dir specimin_dir root_dir : String)
    (targets : List TargetDescriptor) :
    flag_values "--targetFile"
        (specimin_command_tokens project_name issue_input_dir specimin_dir root_dir
          targets)
      = (targets.filter (fun t => t.file_name != "")).map
          (fun t => pjoin (dotReplaced t.package) t.file_name) := by
  rw [tokens_flag_values_targetFile, collect_targets_fst]
  rfl

/-- Claim C5: the `--targetMethod` values of the synthesized command are
exactly those of the descriptors with non-empty `method_name`, in input
order; and for a descriptor with non-empty `method_name` and non-empty
`file_name` that value is `package + "." + stem(file_name) + ("." +
inner_class when the key is present and non-empty, else nothing) + "#" +
method_name`. -/
theorem targetMethod_flags_characterization
    (project_name issue_input_dir specimin_dir root_dir : String)
    (targets : List TargetDescriptor) :
    (flag_values "--targetMethod"
        (specimin_command_tokens project_name issue_input_dir specimin_dir root_dir
          targets)
      = (targets.filter (fun t => t.method_name != "")).map qualified_method_name)
    ∧ ∀ t : TargetDescriptor, t.method_name ≠ "" → t.file_name ≠ "" →
        qualified_method_name t
          = t.package ++ "." ++ (splitext t.file_name).1 ++
              (match t.inner_class with
               | some s => if s ≠ "" then "." ++ s else ""
               | none => "") ++ "#" ++ t.method_name := by
  constructor
  · rw [tokens_flag_values_targetMethod, collect_targets_snd]
  · intro t _ _
    unfold qualified_method_name inner_class_part
    cases hic : t.inner_class with
    | none => rfl
    | some s =>
      by_cases hs : s = ""
      · simp [hs]
      · simp [hs]

/-- Claim C5 witness: the specification scenario descriptor
`file_name = "Foo.java"`, `method_name = "bar"`, `package = "com.example"`,
`inner_class = ""` yields the qualified method name `com.example.Foo#bar`. -/
theorem targetMethod_flags_characterization_witness :
    (("bar" : String) ≠ "") ∧ (("Foo.java" : String) ≠ "") ∧
    qualified_method_name ⟨"bar", "Foo.java", "com.example", some ""⟩
      = "com.example" ++ "." ++ (splitext "Foo.java").1 ++
          (match (some "" : Option String) with
           | some s => if s ≠ "" then "." ++ s else ""
           | none => "") ++ "#" ++ "bar" :=
  ⟨by decide, by decide,
    (targetMethod_flags_characterization "nomulus" "ISSUES/cf-6282" "ISSUES/specimin"
        "core/src/main/java" [⟨"bar", "Foo.java", "com.example", some ""⟩]).2
      ⟨"bar", "Foo.java", "com.example", some ""⟩ (by decide) (by decide)⟩

/-- Claim C6: the synthesized argument list holds exactly one `--root` and
one `--outputDirectory` flag; the `--root` value ends in the path separator
and the `--outputDirectory` value does not; the flags appear in the fixed
order root, output directory, file targets in input order, method targets in
input order; and the rendered command wraps the whole argument string in
single quotes behind the fixed `./gradlew run --args=` prefix. -/
theorem build_command_shape
    (project_name issue_input_dir specimin_dir root_dir : String)
    (targets : List TargetDescriptor) :
    (flag_values "--root"
        (specimin_command_tokens project_name issue_input_dir specimin_dir root_dir
          targets)
      = [specimin_root_dir_arg project_name issue_input_dir specimin_dir root_dir])
    ∧ (flag_values "--outputDirectory"
        (specimin_command_tokens project_name issue_input_dir specimin_dir root_dir
          targets)
      = [specimin_output_dir_arg issue_input_dir specimin_dir])
    ∧ endsSlash (specimin_root_dir_arg project_name issue_input_dir specimin_dir
        root_dir) = true
    ∧ endsSlash (specimin_output_dir_arg issue_input_dir specimin_dir) = false
    ∧ specimin_command_tokens project_name issue_input_dir specimin_dir root_dir targets
      = ("--root", specimin_root_dir_arg project_name issue_input_dir specimin_dir
            root_dir) ::
        ("--outputDirectory", specimin_output_dir_arg issue_input_dir specimin_dir) ::
        ((collect_targets targets).1.map (fun f => ("--targetFile", f)) ++
         (collect_targets targets).2.map (fun m => ("--targetMethod", m)))
    ∧ build_specimin_command project_name issue_input_dir specimin_dir root_dir targets
      = "./gradlew run --args=" ++ squote ++
          specimin_command_args project_name issue_input_dir specimin_dir root_dir
            targets ++ squote
    ∧ specimin_command_args project_name issue_input_dir specimin_dir root_dir targets
      = render_flag "--root" (specimin_root_dir_arg project_name issue_input_dir
            specimin_dir root_dir) ++ " " ++
        render_flag "--outputDirectory" (specimin_output_dir_arg issue_input_dir
            specimin_dir) ++ " " ++
        flag_subcommand "--targetFile" (collect_targets targets).1 ++ " " ++
        flag_subcommand "--targetMethod" (collect_targets targets).2 := by
  refine ⟨tokens_flag_values_root _ _ _ _ _, tokens_flag_values_output _ _ _ _ _,
    endsSlash_root_arg _ _ _ _, endsSlash_output_arg _ _, rfl, ?_, rfl⟩
  unfold build_specimin_command
  rw [show ("./gradlew" ++ " " ++ "run" ++ " " ++ "--args=" : String)
      = "./gradlew run --args=" by decide]

/-! ### Claim theorems: execution engine -/

/-- Claim C2: `run_specimin` is a total function of the subprocess outcome
(it never raises), its status is `PASS` exactly when the exit code is 0, and
the three failure reasons — the error-log path, the literal `Timeout` and a
string beginning `Unhandled exception occurred: ` — are pairwise distinct,
so the reason distinguishes the three failure cases. -/
theorem run_specimin_classification (fs : FS)
    (issue_name command directory : String) (outcome : ExecOutcome) :
    ((run_specimin fs issue_name command directory outcome).2.status = "PASS"
        ↔ ∃ s, outcome = ExecOutcome.completed 0 s)
    ∧ ((run_specimin fs issue_name command directory outcome).2.status = "PASS"
        ∨ (run_specimin fs issue_name command directory outcome).2.status = "FAIL")
    ∧ (∀ (rc : Int) (s : String), outcome = ExecOutcome.completed rc s → rc ≠ 0 →
        (run_specimin fs issue_name command directory outcome).2.reason
          = error_log_path issue_name)
    ∧ (outcome = ExecOutcome.timeout →
        (run_specimin fs issue_name command directory outcome).2.reason = "Timeout")
    ∧ (∀ m, outcome = ExecOutcome.err m →
        (run_specimin fs issue_name command directory outcome).2.reason
          = "Unhandled exception occurred: " ++ m)
    ∧ error_log_path issue_name ≠ "Timeout"
    ∧ (∀ m, error_log_path issue_name ≠ "Unhandled exception occurred: " ++ m)
    ∧ (∀ m, ("Timeout" : String) ≠ "Unhandled exception occurred: " ++ m) := by
  refine ⟨?_, ?_, ?_, ?_, ?_, error_log_path_ne_timeout issue_name,
    fun m => error_log_path_ne_unhandled issue_name m, fun m => timeout_ne_unhandled m⟩
  · cases outcome with
    | completed rc s =>
      by_cases hrc : rc = 0
      · subst hrc
        simp [run_specimin]
      · simp [run_specimin, hrc]
    | timeout => simp [run_specimin]
    | err m => simp [run_specimin]
  · cases outcome with
    | completed rc s =>
      by_cases hrc : rc = 0 <;> simp [run_specimin, hrc]
    | timeout => simp [run_specimin]
    | err m => simp [run_specimin]
  · intro rc s hout hrc
    subst hout
    simp [run_specimin, hrc]
  · intro hout
    subst hout
    simp [run_specimin]
  · intro m hout
    subst hout
    simp [run_specimin]

/-- Claim C2 witness: a run that completes with exit code 0 yields status
`PASS`. -/
theorem run_specimin_classification_witness :
    (run_specimin ⟨[], []⟩ "cf-6282" "./gradlew run" "ISSUES/specimin"
        (ExecOutcome.completed 0 "")).2.status = "PASS" :=
  (run_specimin_classification ⟨[], []⟩ "cf-6282" "./gradlew run" "ISSUES/specimin"
      (ExecOutcome.completed 0 "")).1.mpr ⟨"", rfl⟩

/-- Claim C7: on a non-zero exit code `run_specimin` overwrites the
deterministic error-log path with the captured standard-error text and
returns a `FAIL` result whose reason is exactly that path. -/
theorem run_specimin_error_log (fs : FS)
    (issue_name command directory : String) (rc : Int) (stderr : String)
    (hrc : rc ≠ 0) :
    (run_specimin fs issue_name command directory
        (ExecOutcome.completed rc stderr)).2
      = ⟨issue_name, "FAIL", error_log_path issue_name⟩
    ∧ (run_specimin fs issue_name command directory
        (ExecOutcome.completed rc stderr)).1.readFile (error_log_path issue_name)
      = some stderr := by
  constructor
  · simp [run_specimin, hrc]
  · simp [run_specimin, hrc, FS.readFile, FS.writeFile, List.lookup]

/-- Claim C7 witness: exit code 1 with stderr `NullPointerException`, over a
filesystem holding a stale error log, leaves exactly `NullPointerException`
at the error-log path and reports that path as the reason. -/
theorem run_specimin_error_log_witness :
    ((1 : Int) ≠ 0)
    ∧ ((run_specimin ⟨[], [("ISSUES/cf-6282/cf-6282_error.txt", "old")]⟩ "cf-6282"
          "./gradlew run" "ISSUES/specimin"
          (ExecOutcome.completed 1 "NullPointerException")).2
        = ⟨"cf-6282", "FAIL", error_log_path "cf-6282"⟩)
    ∧ ((run_specimin ⟨[], [("ISSUES/cf-6282/cf-6282_error.txt", "old")]⟩ "cf-6282"
          "./gradlew run" "ISSUES/specimin"
          (ExecOutcome.completed 1 "NullPointerException")).1.readFile
          (error_log_path "cf-6282")
        = some "NullPointerException") :=
  ⟨by decide,
    (run_specimin_error_log ⟨[], [("ISSUES/cf-6282/cf-6282_error.txt", "old")]⟩
        "cf-6282" "./gradlew run" "ISSUES/specimin" 1 "NullPointerException"
        (by decide)).1,
    (run_specimin_error_log ⟨[], [("ISSUES/cf-6282/cf-6282_error.txt", "old")]⟩
        "cf-6282" "./gradlew run" "ISSUES/specimin" 1 "NullPointerException"
        (by decide)).2⟩

/-- Claim C8: on a timeout `run_specimin` returns
`Result(issue_name, FAIL, "Timeout")` and leaves the filesystem unchanged,
writing no error-log file. -/
theorem run_specimin_timeout (fs : FS) (issue_name command directory : String) :
    run_specimin fs issue_name command directory ExecOutcome.timeout
      = (fs, ⟨issue_name, "FAIL", "Timeout"⟩) := rfl

/-! ### Claim theorems: layout manager, repository state, batch loop -/

/-- A filesystem in which the issue tree for `cf-1` already exists, the
input subtree holds a cloned file, and the output subtree holds a stale
artifact from a previous run.  No working-directory-level path named
`output` exists. -/
def fsStale : FS :=
  ⟨["ISSUES", "ISSUES/cf-1", "ISSUES/cf-1/input", "ISSUES/cf-1/output"],
   [("ISSUES/cf-1/output/stale.txt", "old artifact"),
    ("ISSUES/cf-1/input/repo/A.java", "class A")]⟩

/-- Claim C1 (the code contradicts it): re-running `create_issue_directory`
for the same issue preserves the input subtree, as claimed, but it does NOT
empty the per-issue output subdirectory — the existence test and removal
target the bare working-directory-relative constant `"output"` instead of
the per-issue output path, so the stale artifact survives the call. -/
theorem create_issue_directory_keeps_stale_output :
    ((create_issue_directory fsStale "ISSUES" "cf-1").1.readFile
        "ISSUES/cf-1/output/stale.txt" = some "old artifact")
    ∧ ((create_issue_directory fsStale "ISSUES" "cf-1").1.readFile
        "ISSUES/cf-1/input/repo/A.java" = some "class A")
    ∧ (create_issue_directory fsStale "ISSUES" "cf-1").2 = "ISSUES/cf-1/input" := by
  refine ⟨?_, ?_, ?_⟩ <;> rfl

/-- A directory `repo` carrying the `.git` repository marker. -/
def fsRepo : FS := ⟨["repo", "repo/.git"], []⟩

/-- Claim C3 counterexample: in a valid git directory, a branch checkout
whose subprocess exits with code 1 — a failure of the checkout itself, not a
missing repository marker — makes `change_branch` return normally instead of
raising: the exit status of the checkout subprocess is ignored. -/
theorem change_branch_failed_checkout_raises_nothing :
    ((1 : Int) ≠ 0) ∧ is_git_directory fsRepo "repo" = true
    ∧ change_branch fsRepo "feature" "repo" 1 = Except.ok () := by
  refine ⟨by decide, by rfl, ?_⟩
  rfl

/-- Claim C3 as amended: both `change_branch` and `checkout_commit` raise
exactly when the directory lacks the repository marker; a failing branch
checkout raises nothing because its exit status is ignored, and
`checkout_commit` returns a boolean that is true if and only if the checkout
exit code is zero. -/
theorem branch_and_commit_checkout_policy (fs : FS)
    (branch directory commit : String) (gitExit cExit : Int) :
    (is_git_directory fs directory = true →
        change_branch fs branch directory gitExit = Except.ok ()
        ∧ checkout_commit fs commit directory cExit = Except.ok (cExit == 0)
        ∧ (checkout_commit fs commit directory cExit = Except.ok true ↔ cExit = 0))
    ∧ (is_git_directory fs directory = false →
        change_branch fs branch directory gitExit
          = Except.error (directory ++ " is not a valid git directory")
        ∧ checkout_commit fs commit directory cExit
          = Except.error (directory ++ " is not a valid git directory")) := by
  constructor
  · intro h
    refine ⟨?_, ?_, ?_⟩
    · simp [change_branch, h]
    · simp [checkout_commit, h]
    · simp [checkout_commit, h]
  · intro h
    constructor
    · simp [change_branch, h]
    · simp [checkout_commit, h]

/-- Claim C3 amended witness: in a valid git directory a branch checkout
with failing exit status returns normally, and a commit checkout with exit
status 0 returns true. -/
theorem branch_and_commit_checkout_policy_witness :
    is_git_directory fsRepo "repo" = true
    ∧ change_branch fsRepo "feature" "repo" 1 = Except.ok ()
    ∧ checkout_commit fsRepo "abc123" "repo" 0 = Except.ok true :=
  ⟨by rfl,
    ((branch_and_commit_checkout_policy fsRepo "feature" "repo" "abc123" 1 0).1
        (by rfl)).1,
    ((branch_and_commit_checkout_policy fsRepo "feature" "repo" "abc123" 1 0).1
        (by rfl)).2.1⟩

/-- Claim C9: `clone_repository` is idempotent — a second call for the same
URL and directory performs no version-control operation and leaves the
filesystem unchanged, the two calls together clone at most once, and a call
finding the repository directory already present performs no operation and
returns normally. -/
theorem clone_repository_idempotent (fs : FS) (url directory : String) :
    (clone_repository (clone_repository fs url directory).1 url directory
        = ((clone_repository fs url directory).1, []))
    ∧ ((clone_repository fs url directory).2
        ++ (clone_repository (clone_repository fs url directory).1 url directory).2).length ≤ 1
    ∧ (fs.existsPath (directory ++ "/" ++ get_repository_name url) = true →
        clone_repository fs url directory = (fs, [])) := by
  by_cases h : fs.existsPath (directory ++ "/" ++ get_repository_name url) = true
  · have h1 : clone_repository fs url directory = (fs, []) := by
      simp [clone_repository, h]
    exact ⟨by simp [h1], by simp [h1], fun _ => h1⟩
  · have hb : fs.existsPath (directory ++ "/" ++ get_repository_name url) = false :=
      Bool.not_eq_true _ ▸ eq_false_of_ne_true h
    have h1 : clone_repository fs url directory
        = (git_clone_effect fs url directory, [GitOp.clone url directory]) := by
      simp [clone_repository, hb]
    have h2 : (git_clone_effect fs url directory).existsPath
        (directory ++ "/" ++ get_repository_name url) = true := by
      simp [git_clone_effect, FS.existsPath, FS.isDir, List.contains_cons]
    refine ⟨?_, ?_, fun hc => absurd hc (by simp [hb])⟩
    · rw [h1]
      simp [clone_repository, h2]
    · rw [h1]
      simp [clone_repository, h2]

/-- Claim C9 witness: when the repository directory already exists under the
target directory, `clone_repository` performs no git operation and returns
the filesystem unchanged. -/
theorem clone_repository_idempotent_witness :
    ((⟨["work/specimin"], []⟩ : FS).existsPath
        ("work" ++ "/" ++ get_repository_name "https://github.com/kelloggm/specimin.git")
      = true)
    ∧ clone_repository ⟨["work/specimin"], []⟩
        "https://github.com/kelloggm/specimin.git" "work"
      = (⟨["work/specimin"], []⟩, []) :=
  ⟨by decide,
    (clone_repository_idempotent ⟨["work/specimin"], []⟩
        "https://github.com/kelloggm/specimin.git" "work").2.2 (by decide)⟩

/-- Claim C10: the batch loop of `main` evaluates exactly the issues whose
`issue_id` is the literal `cf-6282`, in input order, and silently skips
every other issue, so the result sequence has no entry for any other
identifier; absent (unparsed) data yields no results. -/
theorem main_loop_filters_cf6282 (ev : IssueSpec → Result)
    (issues : List IssueSpec) :
    main_evaluation_results ev (some issues)
      = (issues.filter (fun issue => issue.issue_id == "cf-6282")).map ev
    ∧ main_evaluation_results ev none = [] := by
  have haux : ∀ (l : List IssueSpec) (acc : List Result),
      l.foldl (fun acc issue =>
          if issue.issue_id != "cf-6282" then acc else acc ++ [ev issue]) acc
        = acc ++ (l.filter (fun issue => issue.issue_id == "cf-6282")).map ev := by
    intro l
    induction l with
    | nil => simp
    | cons issue l ih =>
      intro acc
      rw [List.foldl_cons, ih]
      cases h : (issue.issue_id == "cf-6282") with
      | false =>
        have hne : ¬ issue.issue_id = "cf-6282" := by
          intro hc
          rw [hc] at h
          simp at h
        simp [h, hne]
      | true =>
        have heq : issue.issue_id = "cf-6282" := eq_of_beq h
        simp [h, heq]
  constructor
  · cases issues with
    | nil => rfl
    | cons issue l =>
      have h0 : main_evaluation_results ev (some (issue :: l))
          = (issue :: l).foldl (fun acc issue =>
              if issue.issue_id != "cf-6282" then acc else acc ++ [ev issue]) [] := by
        simp [main_evaluation_results]
      rw [h0, haux]
      simp
  · rfl

end SpeciminEval
